import Mathlib

/-!
Verification of the BioTime SMS notifier (`src/biotime_sms_notifier_110745.py`).

The development shallowly embeds the core pipeline of the Python program:

* `read_last_line` — event extraction from the newest tab-delimited log file
  (`LogProcessor.read_last_line`, lines 214-246);
* `strptimeYmdHM` — `datetime.strptime(s, "%Y-%m-%d %H:%M")` as used at
  line 304, mirroring CPython `_strptime` field regexes (a month is
  `1[0-2]|0[1-9]|[1-9]`, a day `3[01]|[12]\d|0[1-9]|[1-9]`, an hour
  `2[0-3]|[0-1]\d|\d`, a minute `[0-5]\d|\d`, followed by the literal
  separator, full-string match) plus `datetime`'s calendar validation;
* `already_sent` / `mark_as_sent` / `initSentLog` — the dedup ledger
  (lines 198-201 and 247-266; note `already_sent` tests the serialized key
  as a *substring* of the whole file, `today_key in f.read()`);
* `sendGo` / `send_sms` — the bounded retry loop of `SMSGateway.send_sms`
  (lines 134-183), instrumented with attempt and sleep counters;
* `process_log` — one dispatcher cycle (lines 268-351), instrumented with
  a trace of contact-file reads, lookups, gateway calls and dedup writes;
* `pollStep` / `pollTrace` — the inner monitoring loop of `main`
  (lines 393-402).

File input/output, logging and the HTTP transport are externalized: file
contents arrive as explicit values (`FileRead`, `Env.latestFile`,
`Env.contacts`) and the transport outcome as a boolean oracle.  Strings are
Lean `String`s; Python's `str.strip` and `\d` are modelled over the ASCII
whitespace/digit classes, which is faithful for the log data the program
targets.
-/

namespace Biotime

/-- Python `str.strip()`: drop leading and trailing whitespace. -/
def pyStrip (s : String) : String :=
  ⟨((s.data.dropWhile Char.isWhitespace).reverse.dropWhile Char.isWhitespace).reverse⟩

/-- Python `re.match(r"\d{4}-\d{2}-\d{2}", field)` (line 229): a *prefix*
match — the first ten characters must be `dddd-dd-dd`, anything may follow. -/
def matchesDatePrefix (s : String) : Bool :=
  match s.data with
  | y1 :: y2 :: y3 :: y4 :: c1 :: m1 :: m2 :: c2 :: d1 :: d2 :: _ =>
    y1.isDigit && y2.isDigit && y3.isDigit && y4.isDigit && c1 == '-' &&
    m1.isDigit && m2.isDigit && c2 == '-' && d1.isDigit && d2.isDigit
  | _ => false

/-- Python `list.index(x)` (line 232): index of the first element equal to
`x`.  In `read_last_line` it is only called on a value found in the list. -/
def pyIndexOf (l : List String) (x : String) : Nat :=
  l.findIdx (fun f => f == x)

/-- Python list subscription `l[i]` with an `Int` index: a negative index
counts from the end (`l[-1]` is the last element), out of range is `none`. -/
def pyGetElem (l : List String) (i : Int) : Option String :=
  if 0 ≤ i then l.get? i.toNat
  else if 0 ≤ i + l.length then l.get? (i + l.length).toNat
  else none

/-- The dict returned by `LogProcessor.read_last_line` (lines 238-242). -/
structure LogRecord where
  emp_code : String
  date : String
  time : String
deriving DecidableEq, Repr

/-- `LogProcessor.read_last_line` (lines 214-246) on an already-split file:
each line is its list of tab-delimited fields.  Empty lines are discarded;
the last remaining line is scanned for the first non-blank field
(`emp_code`), the first date-like field, and the field positionally after
the date (`time_index` is `-1` when no date was found, so the subscript at
line 233 then reads the *last* field by Python negative indexing); the
`all([...])` test at line 235 treats `None` and `""` as falsy. -/
def read_last_line (lines : List (List String)) : Option LogRecord :=
  let nonEmpty := lines.filter (fun l => !l.isEmpty)
  match nonEmpty.getLast? with
  | none => none
  | some last_line =>
    let emp_code : Option String := last_line.find? (fun f => !(pyStrip f == ""))
    let date_str : Option String := last_line.find? matchesDatePrefix
    let time_index : Int :=
      match date_str with
      | some d => (pyIndexOf last_line d : Int) + 1
      | none => -1
    let time_str : Option String :=
      if time_index < (last_line.length : Int) then pyGetElem last_line time_index else none
    match emp_code, date_str, time_str with
    | some e, some d, some t =>
      if e != "" && d != "" && t != "" then
        some ⟨pyStrip e, pyStrip d, pyStrip t⟩
      else none
    | _, _, _ => none

/-- The fields of the `datetime` built by `strptime` at line 304. -/
structure Timestamp where
  year : Nat
  month : Nat
  day : Nat
  hour : Nat
  minute : Nat
deriving DecidableEq, Repr

/-- Value of a decimal digit character. -/
def digitVal (c : Char) : Nat := c.toNat - 48

/-- One numeric `strptime` field that the format regex allows to be one or
two digits wide.  Because every such field in `%Y-%m-%d %H:%M` is followed
by a non-digit literal (or the end of input), the regex alternation is
equivalent to: when two digits are available the two-digit alternatives
must apply (checked by `validTwo`), otherwise the single digit must satisfy
`validOne`. -/
def parseField2or1 (validTwo validOne : Nat → Bool) :
    List Char → Option (Nat × List Char)
  | c1 :: c2 :: rest =>
    if c1.isDigit && c2.isDigit then
      let v := 10 * digitVal c1 + digitVal c2
      if validTwo v then some (v, rest) else none
    else if c1.isDigit then
      if validOne (digitVal c1) then some (digitVal c1, c2 :: rest) else none
    else none
  | [c1] => if c1.isDigit && validOne (digitVal c1) then some (digitVal c1, []) else none
  | [] => none

/-- A literal character of the `strptime` format string. -/
def parseLit (ch : Char) : List Char → Option (List Char)
  | c :: rest => if c == ch then some rest else none
  | [] => none

/-- `%Y`: exactly four digits. -/
def parseYear4 : List Char → Option (Nat × List Char)
  | a :: b :: c :: d :: rest =>
    if a.isDigit && b.isDigit && c.isDigit && d.isDigit then
      some (1000 * digitVal a + 100 * digitVal b + 10 * digitVal c + digitVal d, rest)
    else none
  | _ => none

/-- Gregorian leap-year rule used by `datetime`. -/
def isLeapYear (y : Nat) : Bool :=
  (y % 4 == 0 && y % 100 != 0) || y % 400 == 0

/-- Days in a month, as validated by the `datetime` constructor. -/
def daysInMonth (y m : Nat) : Nat :=
  if m == 2 then (if isLeapYear y then 29 else 28)
  else if m == 4 || m == 6 || m == 9 || m == 11 then 30
  else 31

/-- Calendar validation performed by the `datetime` constructor
(`MINYEAR = 1`, `MAXYEAR = 9999`, day within the month). -/
def isValidDate (y m d : Nat) : Bool :=
  1 ≤ y && y ≤ 9999 && 1 ≤ d && d ≤ daysInMonth y m

/-- `datetime.strptime(s, "%Y-%m-%d %H:%M")` (line 304): `none` models the
`ValueError` caught at lines 305-307.  The whole input must be consumed. -/
def strptimeYmdHM (s : String) : Option Timestamp := do
  let (y, r1) ← parseYear4 s.data
  let r2 ← parseLit '-' r1
  let (m, r3) ← parseField2or1 (fun v => 1 ≤ v && v ≤ 12) (fun v => 1 ≤ v && v ≤ 9) r2
  let r4 ← parseLit '-' r3
  let (d, r5) ← parseField2or1 (fun v => 1 ≤ v && v ≤ 31) (fun v => 1 ≤ v && v ≤ 9) r4
  let r6 ← parseLit ' ' r5
  let (h, r7) ← parseField2or1 (fun v => v ≤ 23) (fun v => v ≤ 9) r6
  let r8 ← parseLit ':' r7
  let (mi, r9) ← parseField2or1 (fun v => v ≤ 59) (fun v => v ≤ 9) r8
  if r9.isEmpty && isValidDate y m d then
    some ⟨y, m, d, h, mi⟩
  else none

/-- Substring test on character lists (Python `needle in haystack`). -/
def infixOfB (n : List Char) : List Char → Bool
  | [] => n.isEmpty
  | c :: rest => n.isPrefixOf (c :: rest) || infixOfB n rest

/-- Python `needle in haystack` on strings (line 253). -/
def substrB (needle haystack : String) : Bool :=
  infixOfB needle.data haystack.data

/-- State of the sent-log file as seen by one dedup operation: absent,
present but unreadable (an `open`/`read` raising), or readable content. -/
inductive FileRead where
  | missing
  | readFail
  | content (s : String)
deriving DecidableEq, Repr

/-- The serialized dedup key `f"{date}_{emp_code}_{msg_type}"`
(lines 249 and 261). -/
def serializeKey (today emp_code msg_type : String) : String :=
  today ++ "_" ++ emp_code ++ "_" ++ msg_type

/-- `LogProcessor.already_sent` (lines 247-257): if the sent-log file does
not exist, `False`; an exception while reading it yields `True` (fail-safe
comment at line 257); otherwise the serialized key is tested as a
*substring* of the entire file content (`today_key in f.read()`). -/
def already_sent (today emp_code msg_type : String) : FileRead → Bool
  | FileRead.missing => false
  | FileRead.readFail => true
  | FileRead.content s => substrB (serializeKey today emp_code msg_type) s

/-- `LogProcessor.mark_as_sent` (lines 259-266): append the serialized key
and a newline (`open(..., 'a')` creates a missing file); a write failure is
logged and leaves the file as it was. -/
def mark_as_sent (today emp_code msg_type : String) : FileRead → FileRead
  | FileRead.missing => FileRead.content (serializeKey today emp_code msg_type ++ "\n")
  | FileRead.readFail => FileRead.readFail
  | FileRead.content s =>
      FileRead.content (s ++ serializeKey today emp_code msg_type ++ "\n")

/-- The `LogProcessor` constructor's sent-log initialization
(lines 198-201): create an empty file only when none exists. -/
def initSentLog : FileRead → FileRead
  | FileRead.missing => FileRead.content ""
  | f => f

/-- Outcome of `SMSGateway.send_sms`, instrumented: the returned boolean,
the number of HTTP POST attempts made, and the number of
`time.sleep(retry_delay)` calls made. -/
structure SendOutcome where
  delivered : Bool
  attempts : Nat
  sleeps : Nat
deriving DecidableEq, Repr

/-- The retry loop of `SMSGateway.send_sms` (lines 166-183):
`for attempt in range(max_retries)`, one POST per iteration (`oracle i`
tells whether attempt `i` succeeds), returning `True` on the first 2xx
response; after a failure, sleep only when `attempt < max_retries - 1`;
falling off the loop returns `False`.  `remaining` counts the iterations
still to run, so `remaining = maxRetries - attempt` throughout. -/
def sendGo (oracle : Nat → Bool) (maxRetries : Nat) :
    Nat → Nat → Nat → SendOutcome
  | 0, attempt, sleeps =>
      { delivered := false, attempts := attempt, sleeps := sleeps }
  | remaining + 1, attempt, sleeps =>
    if oracle attempt then
      { delivered := true, attempts := attempt + 1, sleeps := sleeps }
    else
      sendGo oracle maxRetries remaining (attempt + 1)
        (if attempt < maxRetries - 1 then sleeps + 1 else sleeps)

/-- `SMSGateway.send_sms` (lines 134-183) seen from its control flow: the
payload construction has no effect on the retry behaviour. -/
def send_sms (oracle : Nat → Bool) (maxRetries : Nat) : SendOutcome :=
  sendGo oracle maxRetries maxRetries 0 0

/-- One row of `parent_contact.csv` with the three required columns
(line 290). -/
structure ContactRow where
  empCode : String
  parentNumber : String
  name : String
deriving DecidableEq, Repr

/-- The contact side-file as `pd.read_csv` delivers it at line 289:
reading may raise (caught at line 345), the required columns may be
missing (lines 290-295), or a row list is available. -/
inductive ContactFile where
  | readError
  | missingColumns
  | rows (rs : List ContactRow)
deriving DecidableEq, Repr

/-- Classification at lines 309-310: `"in" if hour < 12 else "out"`. -/
def msgTypeOfHour (hour : Nat) : String :=
  if hour < 12 then "in" else "out"

/-- `strftime("%Y-%m-%d %H:%M")` (line 325), zero-padded fields. -/
def pad2 (n : Nat) : String :=
  if n < 10 then "0" ++ toString n else toString n

/-- Zero-pad a year to four digits (equal to `%Y` on four-digit years). -/
def pad4 (n : Nat) : String :=
  if n < 10 then "000" ++ toString n
  else if n < 100 then "00" ++ toString n
  else if n < 1000 then "0" ++ toString n
  else toString n

/-- The `{time}` value substituted at line 325. -/
def formatTs (ts : Timestamp) : String :=
  pad4 ts.year ++ "-" ++ pad2 ts.month ++ "-" ++ pad2 ts.day ++ " " ++
    pad2 ts.hour ++ ":" ++ pad2 ts.minute

/-- One left-to-right pass of `str.format` restricted to the `name` and
`time` keyword placeholders the templates use (lines 323-326): each
occurrence of the placeholder is substituted, and substituted text is not
rescanned.  The placeholder braces are written as `\x7b`/`\x7d`. -/
def formatNT (nameVal timeVal : String) : List Char → List Char
  | [] => []
  | '\x7b' :: 'n' :: 'a' :: 'm' :: 'e' :: '\x7d' :: rest =>
      nameVal.data ++ formatNT nameVal timeVal rest
  | '\x7b' :: 't' :: 'i' :: 'm' :: 'e' :: '\x7d' :: rest =>
      timeVal.data ++ formatNT nameVal timeVal rest
  | c :: rest => c :: formatNT nameVal timeVal rest

/-- `message_template.format(name=..., time=...)` (lines 323-326) for the
placeholder-only templates the program ships. -/
def renderTemplate (template nameVal timeVal : String) : String :=
  ⟨formatNT nameVal timeVal template.data⟩

/-- Observable effects of one `process_log` cycle: number of attempted
contact-file reads (`pd.read_csv` calls), number of `EmpCode` lookups
performed on the loaded frame, the message type computed at line 310 (when
reached), the gateway invocations as `(phone, message)` pairs, the dedup
keys appended by `mark_as_sent`, and whether the "already sent" skip
branch was taken. -/
structure CycleTrace where
  contactReads : Nat
  lookups : Nat
  msgType : Option String
  gatewaySends : List (String × String)
  marked : List String
  alreadyHit : Bool
deriving DecidableEq, Repr

/-- An empty trace for cycles that stop before the contact read. -/
def noTrace : CycleTrace :=
  { contactReads := 0, lookups := 0, msgType := none,
    gatewaySends := [], marked := [], alreadyHit := false }

/-- Result of one `process_log` cycle: the returned boolean, the trace,
and the sent-log file state after the cycle. -/
structure CycleResult where
  ok : Bool
  trace : CycleTrace
  sentLog : FileRead
deriving DecidableEq, Repr

/-- Everything one `process_log` cycle observes from outside: the parsed
content of the newest CSV file (`none` when `get_latest_csv` found none),
the contact side-file, today's date string (`time.strftime("%Y-%m-%d")`),
the sent-log file state, whether the single possible `send_sms` call of
the cycle returns `True`, and the two message templates. -/
structure Env where
  latestFile : Option (List (List String))
  contacts : ContactFile
  today : String
  sentLog : FileRead
  gatewayDelivers : Bool
  checkInTemplate : String
  checkOutTemplate : String

/-- `LogProcessor.process_log` (lines 268-351).  Control flow in source
order: no newest file → `False`; `read_last_line` fails → `False`; then
`pd.read_csv` on the contact file (read error or missing columns →
`False`); the first row with equal `EmpCode` (empty match → `False`);
`strptime` on `"{date} {time}"` (`ValueError` → `False`); classification
by hour; template rendering; the dedup check, and on a fresh key the
gateway call, marking the key only when it returns `True`. -/
def process_log (env : Env) : CycleResult :=
  match env.latestFile with
  | none => { ok := false, trace := noTrace, sentLog := env.sentLog }
  | some fileLines =>
    match read_last_line fileLines with
    | none => { ok := false, trace := noTrace, sentLog := env.sentLog }
    | some r =>
      match env.contacts with
      | ContactFile.readError =>
          { ok := false, trace := { noTrace with contactReads := 1 },
            sentLog := env.sentLog }
      | ContactFile.missingColumns =>
          { ok := false, trace := { noTrace with contactReads := 1 },
            sentLog := env.sentLog }
      | ContactFile.rows rs =>
        match rs.find? (fun row => row.empCode == r.emp_code) with
        | none =>
            { ok := false,
              trace := { noTrace with contactReads := 1, lookups := 1 },
              sentLog := env.sentLog }
        | some row =>
          let phone_number := pyStrip row.parentNumber
          let nameVal := pyStrip row.name
          match strptimeYmdHM (r.date ++ " " ++ r.time) with
          | none =>
              { ok := false,
                trace := { noTrace with contactReads := 1, lookups := 1 },
                sentLog := env.sentLog }
          | some ts =>
            let msg_type := msgTypeOfHour ts.hour
            let template :=
              if msg_type == "in" then env.checkInTemplate else env.checkOutTemplate
            let message := renderTemplate template nameVal (formatTs ts)
            if already_sent env.today r.emp_code msg_type env.sentLog then
              { ok := true,
                trace := { contactReads := 1, lookups := 1, msgType := some msg_type,
                           gatewaySends := [], marked := [], alreadyHit := true },
                sentLog := env.sentLog }
            else if env.gatewayDelivers then
              { ok := true,
                trace := { contactReads := 1, lookups := 1, msgType := some msg_type,
                           gatewaySends := [(phone_number, message)],
                           marked := [serializeKey env.today r.emp_code msg_type],
                           alreadyHit := false },
                sentLog := mark_as_sent env.today r.emp_code msg_type env.sentLog }
            else
              { ok := false,
                trace := { contactReads := 1, lookups := 1, msgType := some msg_type,
                           gatewaySends := [(phone_number, message)],
                           marked := [], alreadyHit := false },
                sentLog := env.sentLog }

/-- One tick of the monitoring loop (lines 395-400): `latest` is the
`get_latest_csv` result; the dispatcher fires only when it is truthy (a
non-empty string) and differs from `last_seen`, and `last_seen` is
assigned *before* `process_log` runs, whose boolean result does not feed
back into the state.  Returns the new `last_seen` and whether the
dispatcher was invoked. -/
def pollStep (lastSeen : String) (latest : Option String) : String × Bool :=
  match latest with
  | none => (lastSeen, false)
  | some f => if f != "" && f != lastSeen then (f, true) else (lastSeen, false)

/-- The monitoring loop over a finite schedule of `get_latest_csv`
results, returning for each tick whether the dispatcher was invoked. -/
def pollTrace (lastSeen : String) : List (Option String) → List Bool
  | [] => []
  | t :: ts =>
    let step := pollStep lastSeen t
    step.2 :: pollTrace step.1 ts

/-! ## Auxiliary lemmas -/

/-- `infixOfB` decides the contiguous-sublist relation. -/
theorem infixOfB_iff (n : List Char) (h : List Char) :
    infixOfB n h = true ↔ n <:+: h := by
  induction h with
  | nil =>
    simp [infixOfB, List.isEmpty_iff]
  | cons c rest ih =>
    simp only [infixOfB, Bool.or_eq_true, List.isPrefixOf_iff_prefix, ih]
    constructor
    · rintro (hp | hi)
      · exact hp.isInfix
      · exact hi.trans (List.suffix_cons c rest).isInfix
    · rintro ⟨s, t, he⟩
      match s, he with
      | [], he => exact Or.inl ⟨t, he⟩
      | a :: s', he =>
        right
        injection he with h1 h2
        exact ⟨s', t, h2⟩

/-- `substrB` decides the substring relation on the underlying
character lists. -/
theorem substrB_iff (n : String) (h : String) :
    substrB n h = true ↔ n.data <:+: h.data := by
  exact infixOfB_iff n.data h.data

/-- A successful `find?` locates its result at index `findIdx`. -/
theorem find?_findIdx (p : String → Bool) (l : List String) (a : String)
    (h : l.find? p = some a) :
    l.findIdx p < l.length ∧ l.get? (l.findIdx p) = some a := by
  induction l with
  | nil => simp at h
  | cons x xs ih =>
    by_cases hx : p x
    · rw [List.find?_cons_of_pos _ hx] at h
      obtain rfl := Option.some.inj h
      simp [List.findIdx_cons, hx]
    · rw [List.find?_cons_of_neg _ hx] at h
      obtain ⟨ih1, ih2⟩ := ih h
      simp only [List.findIdx_cons, hx, cond_false, List.length_cons,
        List.get?_cons_succ]
      exact ⟨by omega, ih2⟩

/-- Python `list.index` on the value produced by a `find?` scan lands on
the `findIdx` of the scan's predicate: no earlier element can equal the
found value, since equal strings satisfy the same predicate. -/
theorem pyIndexOf_of_find? (p : String → Bool) (l : List String) (a : String)
    (h : l.find? p = some a) : pyIndexOf l a = l.findIdx p := by
  induction l with
  | nil => simp at h
  | cons x xs ih =>
    by_cases hx : p x
    · rw [List.find?_cons_of_pos _ hx] at h
      obtain rfl := Option.some.inj h
      simp [pyIndexOf, List.findIdx_cons, hx]
    · rw [List.find?_cons_of_neg _ hx] at h
      have hpa : p a = true := List.find?_some h
      have hxa : (x == a) = false := by
        cases hbe : x == a
        · rfl
        · exact absurd (eq_of_beq hbe ▸ hpa) hx
      simp only [pyIndexOf, List.findIdx_cons, hxa, cond_false, hx]
      have := ih h
      simp only [pyIndexOf] at this
      omega

/-! ## C1 — dedup key discrimination -/

/-- C1 (counterexample): `wasSent` is a substring test against the whole
sent-log file, not an equality test on serialized keys.  After one
`markSent` for K = (2024-01-01, "A_in", "out"), `wasSent` answers `true`
for K' = (2024-01-01, "A", "in") although K' differs from K in both
subject_id and kind, because `2024-01-01_A_in` occurs inside
`2024-01-01_A_in_out\n`. -/
theorem C1_counterexample :
    already_sent "2024-01-01" "A" "in"
      (mark_as_sent "2024-01-01" "A_in" "out" (FileRead.content "")) = true ∧
    ("A" ≠ "A_in" ∧ "in" ≠ "out") := by
  exact ⟨by decide, by decide, by decide⟩

/-- C1 (amended): on a readable store, `wasSent` returns `true` iff the
serialized key occurs as a substring of the file content.  After exactly
one `markSent` for key K on an empty store, `wasSent` returns `true` for
K, and `false` exactly for those keys K' whose serialization does not
occur as a substring of `serialize(K) ++ "\n"`. -/
theorem C1_amended_substring_semantics
    (t e m t2 e2 m2 s : String) :
    (already_sent t e m (FileRead.content s) = true ↔
      (serializeKey t e m).data <:+: s.data) ∧
    already_sent t e m (mark_as_sent t e m (FileRead.content "")) = true ∧
    (¬ (serializeKey t2 e2 m2).data <:+: (serializeKey t e m ++ "\n").data →
      already_sent t2 e2 m2 (mark_as_sent t e m (FileRead.content "")) = false) := by
  refine ⟨substrB_iff _ s, ?_, ?_⟩
  · show substrB (serializeKey t e m) ("" ++ serializeKey t e m ++ "\n") = true
    rw [substrB_iff]
    refine ⟨"".data, "\n".data, ?_⟩
    simp [String.data_append]
  · intro hni
    show substrB (serializeKey t2 e2 m2) ("" ++ serializeKey t e m ++ "\n") = false
    cases hb : substrB (serializeKey t2 e2 m2) ("" ++ serializeKey t e m ++ "\n")
    · rfl
    · exfalso
      apply hni
      have := (substrB_iff _ _).mp hb
      simpa [String.data_append] using this

/-- C1 (witness): instantiates the amended theorem at K =
(2024-01-01, "E1", "in") and K' = (2024-01-02, "E1", "in"). -/
theorem C1_amended_substring_semantics_witness :
    already_sent "2024-01-02" "E1" "in"
      (mark_as_sent "2024-01-01" "E1" "in" (FileRead.content "")) = false := by
  refine (C1_amended_substring_semantics "2024-01-01" "E1" "in"
    "2024-01-02" "E1" "in" "").2.2 ?_
  decide

/-! ## C6 — gateway retry bound -/

/-- If every attempt fails, the retry loop runs all its iterations,
sleeping after each failure except the last. -/
theorem sendGo_allFail (oracle : Nat → Bool) (maxRetries : Nat) :
    ∀ remaining attempt sleeps,
    maxRetries = attempt + remaining →
    (∀ i, i < maxRetries → oracle i = false) →
    sendGo oracle maxRetries remaining attempt sleeps =
      { delivered := false, attempts := maxRetries,
        sleeps := sleeps + (remaining - 1) } := by
  intro remaining
  induction remaining with
  | zero =>
    intro attempt sleeps h hfail
    simp only [sendGo, SendOutcome.mk.injEq, true_and]
    omega
  | succ rem ih =>
    intro attempt sleeps h hfail
    have ho : oracle attempt = false := hfail attempt (by omega)
    simp only [sendGo, ho, Bool.false_eq_true, if_false]
    rw [ih (attempt + 1) _ (by omega) hfail]
    simp only [SendOutcome.mk.injEq, true_and]
    split <;> omega

/-- If attempt `k` is the first to succeed, the loop stops there having
made `k + 1` POSTs and `k` sleeps. -/
theorem sendGo_success (oracle : Nat → Bool) (maxRetries k : Nat)
    (hk : k < maxRetries) (ho : oracle k = true)
    (hb : ∀ i, i < k → oracle i = false) :
    ∀ remaining attempt sleeps,
    maxRetries = attempt + remaining → attempt ≤ k →
    sendGo oracle maxRetries remaining attempt sleeps =
      { delivered := true, attempts := k + 1,
        sleeps := sleeps + (k - attempt) } := by
  intro remaining
  induction remaining with
  | zero =>
    intro attempt sleeps h hak
    omega
  | succ rem ih =>
    intro attempt sleeps h hak
    by_cases hek : attempt = k
    · subst hek
      simp only [sendGo, ho, if_true, SendOutcome.mk.injEq, true_and]
      omega
    · have hfa : oracle attempt = false := hb attempt (by omega)
      simp only [sendGo, hfa, Bool.false_eq_true, if_false]
      rw [ih (attempt + 1) _ (by omega) (by omega)]
      simp only [SendOutcome.mk.injEq, true_and]
      rw [if_pos (show attempt < maxRetries - 1 by omega)]
      omega

/-- C6: for every transport oracle, if every attempt fails then `send_sms`
returns `False` after exactly `max_retries` POST attempts with
`max_retries - 1` sleeps of `retry_delay` between consecutive attempts
(none after the last); if the transport first succeeds on attempt
`k ≤ max_retries` (1-indexed), `send_sms` returns `True` after exactly `k`
attempts and `k - 1` sleeps, with no further attempts. -/
theorem C6_retry_bound (oracle : Nat → Bool) (maxRetries k : Nat) :
    ((∀ i, i < maxRetries → oracle i = false) →
      send_sms oracle maxRetries =
        { delivered := false, attempts := maxRetries,
          sleeps := maxRetries - 1 }) ∧
    (1 ≤ k → k ≤ maxRetries → oracle (k - 1) = true →
      (∀ i, i < k - 1 → oracle i = false) →
      send_sms oracle maxRetries =
        { delivered := true, attempts := k, sleeps := k - 1 }) := by
  constructor
  · intro hfail
    have h := sendGo_allFail oracle maxRetries maxRetries 0 0 (by omega) hfail
    simpa [send_sms] using h
  · intro h1 h2 ho hb
    have h := sendGo_success oracle maxRetries (k - 1) (by omega) ho hb
      maxRetries 0 0 (by omega) (by omega)
    rw [send_sms, h]
    simp only [SendOutcome.mk.injEq, true_and]
    omega

/-- C6 (witness): a transport failing all three attempts, and one that
first succeeds on the third of three attempts. -/
theorem C6_retry_bound_witness :
    send_sms (fun _ => false) 3 =
      { delivered := false, attempts := 3, sleeps := 2 } ∧
    send_sms (fun i => i == 2) 3 =
      { delivered := true, attempts := 3, sleeps := 2 } := by
  constructor
  · exact (C6_retry_bound (fun _ => false) 3 0).1 (fun i _ => rfl)
  · exact (C6_retry_bound (fun i => i == 2) 3 3).2 (by decide) (by decide)
      (by decide) (by decide)

/-! ## C10 — missing sent-log file -/

/-- C10: the "assume already sent" fail-safe applies only to a failing
read of an existing file (`readFail`); a *missing* sent-log file makes
`already_sent` answer `false` (eligible to send).  The constructor's
initialization creates an empty sent-log file exactly when none exists
and leaves any existing file untouched. -/
theorem C10_missing_file_eligible (t e m s : String) :
    already_sent t e m FileRead.missing = false ∧
    already_sent t e m FileRead.readFail = true ∧
    initSentLog FileRead.missing = FileRead.content "" ∧
    initSentLog (FileRead.content s) = FileRead.content s ∧
    initSentLog FileRead.readFail = FileRead.readFail := by
  exact ⟨rfl, rfl, rfl, rfl, rfl⟩

/-! ## C2, C3 — event extraction -/

/-- An `HH:MM` field, the shape the claims quantify over for the time
position: two digits, a colon, two digits. -/
def isHHMM (s : String) : Bool :=
  match s.data with
  | [a, b, c, d, e] =>
    a.isDigit && b.isDigit && c == ':' && d.isDigit && e.isDigit
  | _ => false

/-- C2 (counterexample): the code returns the date field *trimmed*, so for
the line `E1 ⟶ "2024-01-01 " ⟶ 07:45` (date field carrying a trailing
space, still a prefix match of the date pattern, followed by an `HH:MM`
field) the returned date `"2024-01-01"` is not exactly the matched field
`"2024-01-01 "`. -/
theorem C2_counterexample :
    read_last_line [["E1", "2024-01-01 ", "07:45"]] =
      some ⟨"E1", "2024-01-01", "07:45"⟩ ∧
    matchesDatePrefix "2024-01-01 " = true ∧
    isHHMM "07:45" = true ∧
    "2024-01-01" ≠ "2024-01-01 " := by
  exact ⟨by decide, by decide, by decide, by decide⟩

/-- C2 (amended): for every tab-delimited last line containing a field
with non-whitespace content and a field matching `\d{4}-\d{2}-\d{2}`
(prefix match) whose positional successor is an `HH:MM` field,
`read_last_line` returns a record whose subject_id is the first non-blank
field trimmed, and whose date and time are exactly those two fields *with
surrounding whitespace trimmed* (the trim is the identity on an exact
`HH:MM` time field and on a date field without trailing whitespace). -/
theorem C2_wellformed_extraction (lines : List (List String))
    (fields : List String) (e d t : String)
    (hlast : (lines.filter (fun l => !l.isEmpty)).getLast? = some fields)
    (he : fields.find? (fun f => !(pyStrip f == "")) = some e)
    (hd : fields.find? matchesDatePrefix = some d)
    (ht : fields.get? (fields.findIdx matchesDatePrefix + 1) = some t)
    (htm : isHHMM t = true) :
    read_last_line lines = some ⟨pyStrip e, pyStrip d, pyStrip t⟩ := by
  have hidx : pyIndexOf fields d = fields.findIdx matchesDatePrefix :=
    pyIndexOf_of_find? _ _ _ hd
  have hlen : fields.findIdx matchesDatePrefix + 1 < fields.length :=
    (List.get?_eq_some.mp ht).1
  have hpe : pyStrip e ≠ "" := by
    have h0 := List.find?_some he
    simpa using h0
  have hne : (e != "") = true := by
    rw [bne_iff_ne]
    intro h0
    apply hpe
    rw [h0]
    decide
  have hdp : matchesDatePrefix d = true := List.find?_some hd
  have hnd : (d != "") = true := by
    rw [bne_iff_ne]
    intro h0
    rw [h0] at hdp
    exact absurd hdp (by decide)
  have hnt : (t != "") = true := by
    rw [bne_iff_ne]
    intro h0
    rw [h0] at htm
    exact absurd htm (by decide)
  simp only [read_last_line, hlast, he, hd, hidx]
  rw [if_pos (show (fields.findIdx matchesDatePrefix : Int) + 1 <
    (fields.length : Int) by exact_mod_cast hlen)]
  have hget : pyGetElem fields ((fields.findIdx matchesDatePrefix : Int) + 1) =
      some t := by
    have h0 : (0 : Int) ≤ (fields.findIdx matchesDatePrefix : Int) + 1 := by
      omega
    simp only [pyGetElem, h0, if_true]
    have h1 : ((fields.findIdx matchesDatePrefix : Int) + 1).toNat =
        fields.findIdx matchesDatePrefix + 1 := by
      omega
    rw [h1]
    exact ht
  rw [hget]
  simp only [hne, hnd, hnt, Bool.and_self, Bool.and_true, Bool.true_and,
    if_true]

/-- C2 (witness): a clean well-formed line, where the trims are the
identity. -/
theorem C2_wellformed_extraction_witness :
    read_last_line [["", "E1", "2024-03-01", "07:45"]] =
      some ⟨"E1", "2024-03-01", "07:45"⟩ := by
  have h := C2_wellformed_extraction [["", "E1", "2024-03-01", "07:45"]]
    ["", "E1", "2024-03-01", "07:45"] "E1" "2024-03-01" "07:45"
    (by decide) (by decide) (by decide) (by decide) (by decide)
  rw [h]
  decide

/-- C3: on a last line whose fields contain no date-like field, or whose
first date-like field is the last field, `read_last_line` returns the
no-data result `none` — in particular in the no-date case, where the
computed time index is `-1` and the Python subscript silently reads the
*last* field (modelled by `pyGetElem`), the `all(...)` test still rejects
the record; no exception escapes. -/
theorem C3_malformed_total (lines : List (List String)) (fields : List String)
    (hlast : (lines.filter (fun l => !l.isEmpty)).getLast? = some fields)
    (h : fields.find? matchesDatePrefix = none ∨
      (∃ d, fields.find? matchesDatePrefix = some d ∧
        fields.findIdx matchesDatePrefix + 1 = fields.length)) :
    read_last_line lines = none := by
  rcases h with hdn | ⟨d, hd, hlen⟩
  · simp only [read_last_line, hlast, hdn]
    cases hemp : fields.find? (fun f => !(pyStrip f == "")) <;>
      cases htv : (if (-1 : Int) < (fields.length : Int) then
        pyGetElem fields (-1) else none) <;> simp
  · have hidx : pyIndexOf fields d = fields.findIdx matchesDatePrefix :=
      pyIndexOf_of_find? _ _ _ hd
    simp only [read_last_line, hlast, hd, hidx]
    rw [if_neg (show ¬((fields.findIdx matchesDatePrefix : Int) + 1 <
      (fields.length : Int)) by omega)]
    cases hemp : fields.find? (fun f => !(pyStrip f == "")) <;> simp

/-- C3 (witness): a line with no date-like field, and a line whose only
date-like field is last. -/
theorem C3_malformed_total_witness :
    read_last_line [["E1", "07:45"]] = none ∧
    read_last_line [["E1", "2024-03-01"]] = none := by
  constructor
  · exact C3_malformed_total [["E1", "07:45"]] ["E1", "07:45"]
      (by decide) (Or.inl (by decide))
  · exact C3_malformed_total [["E1", "2024-03-01"]] ["E1", "2024-03-01"]
      (by decide) (Or.inr ⟨"2024-03-01", by decide, by decide⟩)

/-! ## Sample environments for witnesses and counterexamples -/

/-- The contact row of the spec's end-to-end scenario. -/
def sampleRow : ContactRow :=
  { empCode := "E1", parentNumber := "+1555", name := "Ada" }

/-- A well-formed cycle environment: one event line for `E1`, a matching
contact row, an empty sent log, a delivering gateway. -/
def sampleEnv : Env :=
  { latestFile := some [["E1", "2024-03-01", "07:45"]]
    contacts := ContactFile.rows [sampleRow]
    today := "2024-03-01"
    sentLog := FileRead.content ""
    gatewayDelivers := true
    checkInTemplate := "Dear parent, {name} has reached school at {time}"
    checkOutTemplate := "Dear parent, {name} has left school at {time}" }

/-! ## C4 — where timestamp parsing happens -/

/-- C4 (counterexample): the timestamp is *not* parsed during event
extraction.  For the record `E1 ⟶ 2024-03-01 ⟶ 99:99`, whose combined
timestamp does not parse, `read_last_line` still returns a record, and the
cycle performs the contact-file read and the `EmpCode` lookup (trace
counts 1 each) before failing on the parse — the claim says no contact
read or lookup occurs. -/
theorem C4_counterexample :
    strptimeYmdHM "2024-03-01 99:99" = none ∧
    read_last_line [["E1", "2024-03-01", "99:99"]] =
      some ⟨"E1", "2024-03-01", "99:99"⟩ ∧
    (process_log { sampleEnv with
      latestFile := some [["E1", "2024-03-01", "99:99"]] }).trace.contactReads = 1 ∧
    (process_log { sampleEnv with
      latestFile := some [["E1", "2024-03-01", "99:99"]] }).trace.lookups = 1 ∧
    (process_log { sampleEnv with
      latestFile := some [["E1", "2024-03-01", "99:99"]] }).ok = false := by
  exact ⟨by decide, by decide, by decide, by decide, by decide⟩

/-- C4 (amended): timestamp parsing happens inside the dispatcher cycle
*after* the contact-file read and the subject lookup succeed.  For every
record whose combined date+time does not parse as `YYYY-MM-DD HH:MM`, the
cycle fails (returns `False`) with no gateway call and no dedup write —
but the contact file has been read and the lookup performed by then. -/
theorem C4_parse_after_lookup (env : Env) (L : List (List String))
    (r : LogRecord) (rs : List ContactRow) (row : ContactRow)
    (hf : env.latestFile = some L)
    (hr : read_last_line L = some r)
    (hc : env.contacts = ContactFile.rows rs)
    (hm : rs.find? (fun x => x.empCode == r.emp_code) = some row)
    (ht : strptimeYmdHM (r.date ++ " " ++ r.time) = none) :
    (process_log env).ok = false ∧
    (process_log env).trace.contactReads = 1 ∧
    (process_log env).trace.lookups = 1 ∧
    (process_log env).trace.gatewaySends = [] ∧
    (process_log env).trace.marked = [] ∧
    (process_log env).sentLog = env.sentLog := by
  simp [process_log, noTrace, hf, hr, hc, hm, ht]

/-- C4 (witness): instantiates the amended theorem on the unparseable
time `99:99`. -/
theorem C4_parse_after_lookup_witness :
    (process_log { sampleEnv with
      latestFile := some [["E1", "2024-03-01", "99:99"]] }).ok = false ∧
    (process_log { sampleEnv with
      latestFile := some [["E1", "2024-03-01", "99:99"]] }).trace.contactReads = 1 := by
  have h := C4_parse_after_lookup
    { sampleEnv with latestFile := some [["E1", "2024-03-01", "99:99"]] }
    [["E1", "2024-03-01", "99:99"]] ⟨"E1", "2024-03-01", "99:99"⟩
    [sampleRow] sampleRow rfl (by decide) rfl (by decide) (by decide)
  exact ⟨h.1, h.2.1⟩

/-! ## C5 — classification by hour -/

/-- C5: classification is a total deterministic function of the event
hour — `"in"` (ARRIVAL) exactly when `hour < 12`, `"out"` (DEPARTURE)
exactly when `hour ≥ 12`; and a full cycle over an `11:59` event computes
message type `"in"` while one over a `12:00` event computes `"out"`. -/
theorem C5_classification (hour : Nat) :
    (msgTypeOfHour hour = "in" ↔ hour < 12) ∧
    (msgTypeOfHour hour = "out" ↔ 12 ≤ hour) ∧
    (process_log { sampleEnv with
      latestFile := some [["E1", "2024-03-01", "11:59"]] }).trace.msgType =
        some "in" ∧
    (process_log { sampleEnv with
      latestFile := some [["E1", "2024-03-01", "12:00"]] }).trace.msgType =
        some "out" := by
  refine ⟨?_, ?_, by decide, by decide⟩
  · by_cases h : hour < 12
    · simp [msgTypeOfHour, h]
    · simp [msgTypeOfHour, h]
  · by_cases h : hour < 12
    · simp only [msgTypeOfHour, h, if_true]
      constructor
      · intro h0
        exact absurd h0 (by decide)
      · omega
    · simp only [msgTypeOfHour, h, if_false]
      constructor
      · intro h0
        omega
      · intro h0
        trivial

/-- C5 (witness): the boundary hours. -/
theorem C5_classification_witness :
    msgTypeOfHour 11 = "in" ∧ msgTypeOfHour 12 = "out" := by
  constructor
  · exact ((C5_classification 11).1).mpr (by decide)
  · exact ((C5_classification 12).2.1).mpr (by decide)

/-! ## C7 — dedup gating -/

/-- C7: in every cycle that reaches the dedup check (extraction, contact
read, lookup and timestamp parse all succeed), a `wasSent` hit means the
gateway is never called and the cycle reports success with no dedup write
and an unchanged store; on a miss the gateway is called exactly once, and
`markSent` runs exactly when it reports delivery — on failure nothing is
marked and the cycle reports failure.  Moreover *every* cycle, whatever
its branch, makes at most one gateway call. -/
theorem C7_dedup_gating (env : Env) (L : List (List String))
    (r : LogRecord) (rs : List ContactRow) (row : ContactRow) (ts : Timestamp)
    (hf : env.latestFile = some L)
    (hr : read_last_line L = some r)
    (hc : env.contacts = ContactFile.rows rs)
    (hm : rs.find? (fun x => x.empCode == r.emp_code) = some row)
    (ht : strptimeYmdHM (r.date ++ " " ++ r.time) = some ts) :
    (∀ e : Env, (process_log e).trace.gatewaySends.length ≤ 1) ∧
    (already_sent env.today r.emp_code (msgTypeOfHour ts.hour) env.sentLog = true →
      (process_log env).trace.gatewaySends = [] ∧
      (process_log env).ok = true ∧
      (process_log env).trace.marked = [] ∧
      (process_log env).sentLog = env.sentLog) ∧
    (already_sent env.today r.emp_code (msgTypeOfHour ts.hour) env.sentLog = false →
      (process_log env).trace.gatewaySends.length = 1 ∧
      (env.gatewayDelivers = true →
        (process_log env).trace.marked =
          [serializeKey env.today r.emp_code (msgTypeOfHour ts.hour)] ∧
        (process_log env).ok = true ∧
        (process_log env).sentLog =
          mark_as_sent env.today r.emp_code (msgTypeOfHour ts.hour) env.sentLog) ∧
      (env.gatewayDelivers = false →
        (process_log env).trace.marked = [] ∧
        (process_log env).ok = false ∧
        (process_log env).sentLog = env.sentLog)) := by
  refine ⟨?_, ?_, ?_⟩
  · intro e
    simp only [process_log]
    repeat' split
    all_goals simp [noTrace]
  · intro hA
    simp only [process_log, hf, hr, hc, hm, ht, hA, if_true]
    simp
  · intro hA
    simp only [process_log, hf, hr, hc, hm, ht, hA, Bool.false_eq_true, if_false]
    refine ⟨?_, ?_, ?_⟩
    · cases hg : env.gatewayDelivers <;> simp [hg]
    · intro hg
      simp only [hg, if_true]
      simp
    · intro hg
      simp only [hg, Bool.false_eq_true, if_false]
      simp

/-- C7 (witness): the sample environment reaches the dedup check on an
empty store (a miss) with a delivering gateway. -/
theorem C7_dedup_gating_witness :
    (process_log sampleEnv).trace.marked =
      [serializeKey "2024-03-01" "E1" "in"] ∧
    (process_log sampleEnv).ok = true := by
  have h := C7_dedup_gating sampleEnv [["E1", "2024-03-01", "07:45"]]
    ⟨"E1", "2024-03-01", "07:45"⟩ [sampleRow] sampleRow
    ⟨2024, 3, 1, 7, 45⟩ rfl (by decide) rfl (by decide) (by decide)
  have h2 := (h.2.2 (by decide)).2.1 rfl
  exact ⟨h2.1, h2.2.1⟩

/-! ## C8 — same-day idempotence -/

/-- After marking a key, a readable store makes `wasSent` answer `true`
for that same key: the serialized key is a substring of the appended
content. -/
theorem already_sent_after_mark (t e m : String) (f : FileRead) :
    already_sent t e m (mark_as_sent t e m f) = true := by
  cases f with
  | missing =>
    simp only [mark_as_sent, already_sent]
    rw [substrB_iff]
    exact ⟨[], "\n".data, by simp [String.data_append]⟩
  | readFail => rfl
  | content s =>
    simp only [mark_as_sent, already_sent]
    rw [substrB_iff]
    exact ⟨s.data, "\n".data, by simp [String.data_append]⟩

/-- C8: running the dispatcher cycle twice on the same calendar day over
the same event, the first run delivering and marking the key, yields
exactly one gateway send in total: the second run makes zero gateway
calls, takes the "already sent" branch, and ends with the success
outcome. -/
theorem C8_same_day_idempotence (env : Env) (L : List (List String))
    (r : LogRecord) (rs : List ContactRow) (row : ContactRow) (ts : Timestamp)
    (hf : env.latestFile = some L)
    (hr : read_last_line L = some r)
    (hc : env.contacts = ContactFile.rows rs)
    (hm : rs.find? (fun x => x.empCode == r.emp_code) = some row)
    (ht : strptimeYmdHM (r.date ++ " " ++ r.time) = some ts)
    (hg : env.gatewayDelivers = true)
    (hns : already_sent env.today r.emp_code (msgTypeOfHour ts.hour)
      env.sentLog = false) :
    (process_log { env with
      sentLog := (process_log env).sentLog }).trace.gatewaySends = [] ∧
    (process_log { env with
      sentLog := (process_log env).sentLog }).trace.alreadyHit = true ∧
    (process_log { env with
      sentLog := (process_log env).sentLog }).ok = true ∧
    (process_log env).trace.gatewaySends.length +
      (process_log { env with
        sentLog := (process_log env).sentLog }).trace.gatewaySends.length = 1 := by
  have hsl1 : (process_log env).sentLog =
      mark_as_sent env.today r.emp_code (msgTypeOfHour ts.hour) env.sentLog := by
    simp only [process_log, hf, hr, hc, hm, ht, hns, hg, Bool.false_eq_true,
      if_false, if_true]
  have hgs1 : (process_log env).trace.gatewaySends.length = 1 := by
    simp only [process_log, hf, hr, hc, hm, ht, hns, hg, Bool.false_eq_true,
      if_false, if_true]
    rfl
  rw [hsl1, hgs1]
  have h2 := already_sent_after_mark env.today r.emp_code
    (msgTypeOfHour ts.hour) env.sentLog
  simp only [process_log, hf, hr, hc, hm, ht, h2, if_true]
  simp

/-- C8 (witness): the sample environment run twice on 2024-03-01. -/
theorem C8_same_day_idempotence_witness :
    (process_log { sampleEnv with
      sentLog := (process_log sampleEnv).sentLog }).trace.gatewaySends = [] ∧
    (process_log { sampleEnv with
      sentLog := (process_log sampleEnv).sentLog }).ok = true := by
  have h := C8_same_day_idempotence sampleEnv [["E1", "2024-03-01", "07:45"]]
    ⟨"E1", "2024-03-01", "07:45"⟩ [sampleRow] sampleRow
    ⟨2024, 3, 1, 7, 45⟩ rfl (by decide) rfl (by decide) (by decide) rfl
    (by decide)
  exact ⟨h.1, h.2.2.1⟩

/-! ## C9 — no reprocessing while the newest file is unchanged -/

/-- C9: the dispatcher fires on a tick exactly when `get_latest_csv`
returned a truthy (non-empty) file name different from `last_seen`; the
step's state update to `last_seen` happens in the same step regardless of
the dispatcher's boolean result (which does not feed back into `pollStep`
at all); consequently, once `last_seen` holds `F` — e.g. right after a
cycle over `F` that ended in delivery failure — no later tick fires as
long as every observation is `F` again or `none`. -/
theorem C9_no_reprocessing (lastSeen : String) (latest : Option String)
    (F : String) (ts : List (Option String))
    (h : ∀ t ∈ ts, t = none ∨ t = some F) :
    ((pollStep lastSeen latest).2 = true ↔
      ∃ f, latest = some f ∧ f ≠ "" ∧ f ≠ lastSeen) ∧
    ((pollStep lastSeen latest).2 = true →
      (pollStep lastSeen latest).1 = latest.getD "") ∧
    pollTrace F ts = List.replicate ts.length false := by
  refine ⟨?_, ?_, ?_⟩
  · cases latest with
    | none => simp [pollStep]
    | some f =>
      simp only [pollStep]
      by_cases hc : (f != "" && f != lastSeen) = true
      · rw [if_pos hc]
        simp only [Bool.and_eq_true, bne_iff_ne] at hc
        simp only [true_iff]
        exact ⟨f, rfl, hc.1, hc.2⟩
      · rw [if_neg hc]
        simp only [Bool.and_eq_true, bne_iff_ne] at hc
        constructor
        · intro h0
          exact absurd h0 (by simp)
        · rintro ⟨f', hf', h1, h2⟩
          injection hf' with hf'
          subst hf'
          exact absurd ⟨h1, h2⟩ hc
  · cases latest with
    | none => simp [pollStep]
    | some f =>
      simp only [pollStep, Option.getD_some]
      by_cases hc : (f != "" && f != lastSeen) = true
      · rw [if_pos hc]
        intro h0
        rfl
      · rw [if_neg hc]
        intro h0
        exact absurd h0 (by simp)
  · induction ts with
    | nil => rfl
    | cons t rest ih =>
      have hts : t = none ∨ t = some F := h t (by simp)
      have hrest : ∀ x ∈ rest, x = none ∨ x = some F := by
        intro x hx
        exact h x (by simp [hx])
      rcases hts with h0 | h0
      · subst h0
        simp only [pollTrace, pollStep, List.length_cons, List.replicate_succ]
        exact congrArg (List.cons false) (ih hrest)
      · subst h0
        simp only [pollTrace, pollStep, bne_self_eq_false, Bool.and_false,
          Bool.false_eq_true, if_false, List.length_cons, List.replicate_succ]
        exact congrArg (List.cons false) (ih hrest)

/-- C9 (witness): after firing on `f1.csv`, repeated observations of
`f1.csv` (with a gap where no file is found) never fire again. -/
theorem C9_no_reprocessing_witness :
    pollTrace "f1.csv" [some "f1.csv", none, some "f1.csv"] =
      [false, false, false] := by
  have h := (C9_no_reprocessing "" none "f1.csv"
    [some "f1.csv", none, some "f1.csv"] (by decide)).2.2
  rw [h]
  rfl

end Biotime
